import Mathlib

/-!
Shallow embedding of the three Express MCP coordinator handlers
(`src/stateless.ts`, `src/stateful.ts`, `src/sse.ts`) of the
`express-mcp-handler` package, together with theorems about their
session-lifecycle behaviour.

Modelling conventions:
* Each handler execution is modelled as a function producing a trace of
  observable primitive actions (`Act`) and, where relevant, an updated
  registry state.  The order of actions in a trace follows the statement
  order of the TypeScript source.
* JavaScript exceptions are modelled by an explicit "throw point"
  parameter saying which awaited step (if any) throws; the `catch` blocks
  of the source are translated literally.
* Node's event registration semantics are modelled explicitly: a listener
  registered with `res.on('close', h)` fires only for close emissions that
  happen after the registration; emissions that happened earlier are lost.
* Optional callbacks (`options.onClose` etc.) are modelled by presence
  flags, mirroring the `if (options.cb)` / `options.cb?.()` guards of the
  source.
-/

namespace ExpressMcp

/-- Observable primitive actions performed by a handler. `statusJson c r`
is `res.status(c).json({jsonrpc:'2.0', error:{code: r, ...}, id: null})`;
`statusText c m` is `res.status(c).send(m)`; `nextErr` is `next(error)`;
`deliverTo t` is `transport.handleRequest(req, res, req.body)` (or
`handlePostMessage`) on the transport with model identity `t`. -/
inductive Act where
  | createServer : Act
  | createTransport : Act
  | connectServer : Act
  | deliverTo : Nat → Act
  | registerSinkHook : Act
  | callOnClose : Option String → Act
  | transportClose : Act
  | serverClose : Act
  | callOnError : Option String → Act
  | statusJson : Nat → Int → Act
  | statusText : Nat → String → Act
  | nextErr : Act
  | callOnSessionInitialized : String → Act
  | callOnSessionClosed : String → Act
  | callOnInvalidSession : Act
  | insertReg : String → Nat → Act
  | removeReg : String → Act
  deriving DecidableEq, Repr

/-- Number of occurrences of action `a` in trace `tr`. -/
def countAct (tr : List Act) (a : Act) : Nat :=
  match tr with
  | [] => 0
  | x :: xs => (if x = a then 1 else 0) + countAct xs a

theorem countAct_append (l₁ l₂ : List Act) (a : Act) :
    countAct (l₁ ++ l₂) a = countAct l₁ a + countAct l₂ a := by
  induction l₁ with
  | nil => simp [countAct]
  | cons x xs ih => simp [countAct, ih]; ring

/-- The session registry: a JS object mapping session ids to transports,
modelled as an association list keyed by session id and valued by the
model identity of the transport. -/
abbrev Registry := List (String × Nat)

/-- Registry lookup, `transports[sessionId]`. -/
def regLookup (r : Registry) (sid : String) : Option Nat :=
  match r with
  | [] => none
  | (k, v) :: rest => if k = sid then some v else regLookup rest sid

/-- Registry removal, `delete transports[sid]` (a no-op when the key is
absent). -/
def regRemove (r : Registry) (sid : String) : Registry :=
  match r with
  | [] => []
  | (k, v) :: rest => if k = sid then regRemove rest sid else (k, v) :: regRemove rest sid

/-- Registry insertion, `transports[sid] = transport` (silently overwrites
an existing entry with the same key). -/
def regInsert (r : Registry) (sid : String) (tid : Nat) : Registry :=
  (sid, tid) :: regRemove r sid

/-! ## Stateless handler (`src/stateless.ts`) -/

/-- Options of the stateless handler (`StatelessHandlerOptions`): presence
flags for the optional `onClose` and `onError` callbacks. -/
structure StatelessOptions where
  hasOnClose : Bool
  hasOnError : Bool
  deriving DecidableEq, Repr

/-- Which awaited step of the stateless handler's `try` block throws:
`serverFactory()`, `new StreamableHTTPServerTransport(...)`,
`server.connect(transport)`, or `transport.handleRequest(...)`. -/
inductive SlThrow where
  | atFactory : SlThrow
  | atConstruct : SlThrow
  | atConnect : SlThrow
  | atDeliver : SlThrow
  deriving DecidableEq, Repr

/-- One execution environment of the stateless handler: the HTTP method,
which step (if any) throws, whether `res.headersSent` is true when the
`catch` block runs, whether the output sink emitted `close` while the
delivery was still in flight (client abort mid-stream, before
`res.on('close', ...)` is registered), and how many `close` emissions
happen after the handler body has finished. -/
structure StatelessRun where
  method : String
  throwAt : Option SlThrow
  headersSentAtCatch : Bool
  closeDuringDelivery : Bool
  closesAfter : Nat
  deriving DecidableEq, Repr

/-- True when the output sink closed at some point during the run. -/
def StatelessRun.sinkClosed (r : StatelessRun) : Bool :=
  r.closeDuringDelivery || r.closesAfter != 0

/-- Firing of `n` sink-close emissions against the registered clean-up
listener of `src/stateless.ts` lines 47-60.  `alive` models the
`if (transport && server)` guard: the listener body runs only while both
local variables are still set, and its last statements clear them. -/
def statelessFire (opts : StatelessOptions) (n : Nat) (alive : Bool) : List Act :=
  match n with
  | 0 => []
  | Nat.succ k =>
    if alive then
      (if opts.hasOnClose then [Act.callOnClose none] else [])
        ++ [Act.transportClose, Act.serverClose] ++ statelessFire opts k false
    else statelessFire opts k false

/-- The `catch` block of `src/stateless.ts` lines 61-91: defensively close
transport and server (guarded by existence checks), call `onError` if
present, send a structured 500 unless headers were already sent, then
`next(error)`. -/
def slCatch (opts : StatelessOptions) (transportSet serverSet headersSent : Bool) : List Act :=
  (if transportSet then [Act.transportClose] else [])
    ++ (if serverSet then [Act.serverClose] else [])
    ++ (if opts.hasOnError then [Act.callOnError none] else [])
    ++ (if headersSent then [] else [Act.statusJson 500 (-32603)])
    ++ [Act.nextErr]

/-- Actions of the stateless handler's `try` block completed before the
throw point `tp` is reached. -/
def slPre : SlThrow → List Act
  | SlThrow.atFactory => []
  | SlThrow.atConstruct => [Act.createServer]
  | SlThrow.atConnect => [Act.createServer, Act.createTransport]
  | SlThrow.atDeliver => [Act.createServer, Act.createTransport, Act.connectServer]

/-- Whether the local `transport` variable is set when the throw point
`tp` is reached. -/
def slTransportSet : SlThrow → Bool
  | SlThrow.atConnect => true
  | SlThrow.atDeliver => true
  | _ => false

/-- Whether the local `server` variable is set when the throw point `tp`
is reached. -/
def slServerSet : SlThrow → Bool
  | SlThrow.atFactory => false
  | _ => true

/-- Trace of one stateless handler execution (`statelessHandler`'s returned
middleware).  Non-POST requests are rejected up front with a 405.  On the
success path the clean-up listener is registered only after
`transport.handleRequest` resolves, so a sink close during delivery fires
nothing; subsequent emissions hit the registered listener. The model
identity of the per-request transport is irrelevant here, so `deliverTo 0`
stands for `transport.handleRequest(req, res, req.body)`. -/
def statelessTrace (opts : StatelessOptions) (r : StatelessRun) : List Act :=
  if r.method ≠ "POST" then [Act.statusJson 405 (-32000)]
  else
    match r.throwAt with
    | none =>
      [Act.createServer, Act.createTransport, Act.connectServer, Act.deliverTo 0,
        Act.registerSinkHook] ++ statelessFire opts r.closesAfter true
    | some tp =>
      slPre tp ++ slCatch opts (slTransportSet tp) (slServerSet tp) r.headersSentAtCatch

example :
    statelessTrace ⟨true, true⟩ ⟨"GET", none, false, false, 0⟩
      = [Act.statusJson 405 (-32000)] := by decide

example :
    statelessTrace ⟨true, true⟩ ⟨"POST", none, false, false, 1⟩
      = [Act.createServer, Act.createTransport, Act.connectServer, Act.deliverTo 0,
          Act.registerSinkHook, Act.callOnClose none, Act.transportClose, Act.serverClose] := by
  decide

example :
    statelessTrace ⟨true, true⟩ ⟨"POST", some SlThrow.atDeliver, false, false, 0⟩
      = [Act.createServer, Act.createTransport, Act.connectServer, Act.transportClose,
          Act.serverClose, Act.callOnError none, Act.statusJson 500 (-32603), Act.nextErr] := by
  decide

/-! ## Stateful handlers (`src/stateful.ts`) -/

/-- Options of the stateful handlers (`StatefulHandlerOptions`): presence
flags for the optional callbacks (the required `sessionIdGenerator` is
modelled by the generated id carried in the environment). -/
structure StatefulOptions where
  hasOnSessionInitialized : Bool
  hasOnSessionClosed : Bool
  hasOnError : Bool
  hasOnInvalidSession : Bool
  deriving DecidableEq, Repr

/-- Coordinator state of `statefulHandlers`: the `transports` map plus a
fresh-identity counter for newly constructed transports. -/
structure StatefulState where
  registry : Registry
  nextTid : Nat
  deriving DecidableEq, Repr

/-- An inbound request as seen by `postHandler`: the
`mcp-session-id` header, the HTTP method, and whether
`isInitializeRequest(req.body)` holds. -/
structure StatefulReq where
  sessionHeader : Option String
  method : String
  isInitializeRequest : Bool
  deriving DecidableEq, Repr

/-- Which awaited step of `postHandler` throws: `serverFactory().connect`
or `transport.handleRequest`. -/
inductive SfThrow where
  | atConnect : SfThrow
  | atDeliver : SfThrow
  deriving DecidableEq, Repr

/-- Execution environment of one `postHandler` call: throw point (if any),
`res.headersSent` at catch time, whether the SDK fires
`onsessioninitialized` during `handleRequest` (it does for a well-formed
initialize round-trip), and the id produced by `sessionIdGenerator`. -/
structure StatefulEnv where
  throwAt : Option SfThrow
  headersSentAtCatch : Bool
  initFires : Bool
  genId : String
  deriving DecidableEq, Repr

/-- The `catch` block of `postHandler` (`src/stateful.ts` lines 85-109):
`onError` with the header session id if present, structured 500 unless
headers were sent, then `next(error)`. -/
def sfCatch (opts : StatefulOptions) (hdr : Option String) (headersSent : Bool) : List Act :=
  (if opts.hasOnError then [Act.callOnError hdr] else [])
    ++ (if headersSent then [] else [Act.statusJson 500 (-32603)])
    ++ [Act.nextErr]

/-- The `onsessioninitialized` callback installed on a newly created
transport (`src/stateful.ts` lines 43-51): store the transport in the map
under the new id, then call `onSessionInitialized` if provided. -/
def sfInitHook (opts : StatefulOptions) (st : StatefulState) (genId : String) (tid : Nat) :
    StatefulState × List Act :=
  ({ st with registry := regInsert st.registry genId tid },
    [Act.insertReg genId tid]
      ++ (if opts.hasOnSessionInitialized then [Act.callOnSessionInitialized genId] else []))

/-- The `transport.onclose` hook installed on a newly created transport
(`src/stateful.ts` lines 55-65): when the transport has an assigned
session id, call `onSessionClosed` if provided, then delete the map
entry; otherwise do nothing. -/
def sfCloseHook (opts : StatefulOptions) (assignedSid : Option String) (reg : Registry) :
    Registry × List Act :=
  match assignedSid with
  | none => (reg, [])
  | some sid =>
    (regRemove reg sid,
      (if opts.hasOnSessionClosed then [Act.callOnSessionClosed sid] else [])
        ++ [Act.removeReg sid])

/-- One execution of `postHandler` (`src/stateful.ts` lines 30-110),
returning the updated coordinator state and the trace.

Branching mirrors the source: a present header whose id is in the map
reuses that transport; an absent header with a POST initialize body
creates a transport (with the init and close hooks above), connects a
fresh server to it, and delivers; anything else takes the invalid-session
path (optional `onInvalidSession`, then structured 400).  On the creation
path the SDK fires `onsessioninitialized` inside `handleRequest`, hence
after the `deliverTo` action and only when delivery is reached and
`initFires` holds. -/
def postHandler (opts : StatefulOptions) (st : StatefulState) (req : StatefulReq)
    (env : StatefulEnv) : StatefulState × List Act :=
  match req.sessionHeader with
  | some s =>
    match regLookup st.registry s with
    | some tid =>
      match env.throwAt with
      | some SfThrow.atDeliver =>
        (st, [Act.deliverTo tid] ++ sfCatch opts req.sessionHeader env.headersSentAtCatch)
      | _ => (st, [Act.deliverTo tid])
    | none =>
      (st, (if opts.hasOnInvalidSession then [Act.callOnInvalidSession] else [])
        ++ [Act.statusJson 400 (-32000)])
  | none =>
    if req.method = "POST" && req.isInitializeRequest then
      let tid := st.nextTid
      let created : StatefulState := { st with nextTid := tid + 1 }
      match env.throwAt with
      | some SfThrow.atConnect =>
        (created, [Act.createTransport, Act.createServer]
          ++ sfCatch opts req.sessionHeader env.headersSentAtCatch)
      | some SfThrow.atDeliver =>
        let pre := [Act.createTransport, Act.createServer, Act.connectServer, Act.deliverTo tid]
        if env.initFires then
          let (st₂, initActs) := sfInitHook opts created env.genId tid
          (st₂, pre ++ initActs ++ sfCatch opts req.sessionHeader env.headersSentAtCatch)
        else
          (created, pre ++ sfCatch opts req.sessionHeader env.headersSentAtCatch)
      | none =>
        let pre := [Act.createTransport, Act.createServer, Act.connectServer, Act.deliverTo tid]
        if env.initFires then
          let (st₂, initActs) := sfInitHook opts created env.genId tid
          (st₂, pre ++ initActs)
        else (created, pre)
    else
      (st, (if opts.hasOnInvalidSession then [Act.callOnInvalidSession] else [])
        ++ [Act.statusJson 400 (-32000)])

/-- The plain-text `catch` block shared in shape by the stateful
GET/DELETE handler (`src/stateful.ts` lines 126-137), the SSE
`postHandler` (`src/sse.ts` lines 37-53) and the SSE `getHandler`
(`src/sse.ts` lines 81-96): `onError` with the best-known session id when
provided, a plain-text 500 unless headers were already sent, then
`next(error)`. -/
def textCatch (hasOnError : Bool) (sid : Option String) (headersSent : Bool) : List Act :=
  (if hasOnError then [Act.callOnError sid] else [])
    ++ (if headersSent then [] else [Act.statusText 500 "Internal server error"])
    ++ [Act.nextErr]

/-- One execution of `handleSessionRequest` (`src/stateful.ts` lines
113-138), the shared GET/DELETE handler: require a header id resolving in
the map, else plain-text 400; on resolution delegate with no body. -/
def handleSessionRequest (opts : StatefulOptions) (st : StatefulState)
    (hdr : Option String) (deliverThrows headersSent : Bool) : List Act :=
  match hdr with
  | some s =>
    match regLookup st.registry s with
    | some tid =>
      if deliverThrows then
        [Act.deliverTo tid] ++ textCatch opts.hasOnError hdr headersSent
      else [Act.deliverTo tid]
    | none =>
      (if opts.hasOnInvalidSession then [Act.callOnInvalidSession] else [])
        ++ [Act.statusText 400 "Invalid or missing session ID"]
  | none =>
    (if opts.hasOnInvalidSession then [Act.callOnInvalidSession] else [])
      ++ [Act.statusText 400 "Invalid or missing session ID"]

example :
    postHandler ⟨true, true, true, true⟩ ⟨[("s", 7)], 9⟩ ⟨some "s", "POST", false⟩
      ⟨none, false, false, "g"⟩ = (⟨[("s", 7)], 9⟩, [Act.deliverTo 7]) := by decide

example :
    postHandler ⟨true, true, true, true⟩ ⟨[], 0⟩ ⟨none, "POST", true⟩
      ⟨none, false, true, "g"⟩
      = (⟨[("g", 0)], 1⟩,
          [Act.createTransport, Act.createServer, Act.connectServer, Act.deliverTo 0,
            Act.insertReg "g" 0, Act.callOnSessionInitialized "g"]) := by decide

example :
    postHandler ⟨true, true, true, true⟩ ⟨[("s", 7)], 9⟩ ⟨some "missing", "POST", true⟩
      ⟨none, false, false, "g"⟩
      = (⟨[("s", 7)], 9⟩, [Act.callOnInvalidSession, Act.statusJson 400 (-32000)]) := by decide

/-! ## SSE handlers (`src/sse.ts`) -/

/-- Options of the SSE handlers (`SSEHandlerOptions`): presence flags for
the optional `onError` and `onClose` callbacks. -/
structure SSEOptions where
  hasOnError : Bool
  hasOnClose : Bool
  deriving DecidableEq, Repr

/-- Successful body of the SSE `getHandler` (`src/sse.ts` lines 58-80):
construct an `SSEServerTransport` (which self-assigns `sid`), install the
error and close hooks, store the transport in the map, register the
`res.on('close', ...)` listener, then connect a fresh server.  Returns the
updated registry and the trace. -/
def sseOpen (reg : Registry) (sid : String) (tid : Nat) : Registry × List Act :=
  (regInsert reg sid tid,
    [Act.createTransport, Act.insertReg sid tid, Act.registerSinkHook,
      Act.createServer, Act.connectServer])

/-- Which awaited or throwing step of the SSE `getHandler`'s `try` block
throws: the `SSEServerTransport` constructor (line 60), `serverFactory()`
or `serverFactory().connect(transport)` (line 80). -/
inductive SseOpenThrow where
  | atConstruct : SseOpenThrow
  | atFactory : SseOpenThrow
  | atConnect : SseOpenThrow
  deriving DecidableEq, Repr

/-- One execution of the SSE `getHandler` (`src/sse.ts` lines 57-96),
including its `catch` block.  When nothing throws this is `sseOpen`.  When
the constructor throws, nothing was recorded or inserted; when the factory
or `connect` throws, construction, map insertion and sink-listener
registration already happened (lines 60-78 precede line 80), so the
registry keeps the new entry.  The `catch` fires `onError` with an
undefined session id (construction may have failed before an id existed),
then plain-text 500 unless headers were sent, then `next(error)`. -/
def sseGetHandler (opts : SSEOptions) (reg : Registry) (sid : String) (tid : Nat)
    (throwAt : Option SseOpenThrow) (headersSent : Bool) : Registry × List Act :=
  match throwAt with
  | none => sseOpen reg sid tid
  | some SseOpenThrow.atConstruct =>
    (reg, textCatch opts.hasOnError none headersSent)
  | some SseOpenThrow.atFactory =>
    (regInsert reg sid tid,
      [Act.createTransport, Act.insertReg sid tid, Act.registerSinkHook]
        ++ textCatch opts.hasOnError none headersSent)
  | some SseOpenThrow.atConnect =>
    (regInsert reg sid tid,
      [Act.createTransport, Act.insertReg sid tid, Act.registerSinkHook, Act.createServer]
        ++ textCatch opts.hasOnError none headersSent)

/-- The two close notifications an open SSE channel can receive: the
transport's own `onclose` hook, and the response's `close` event. -/
inductive SSEClose where
  | channelClose : SSEClose
  | sinkClose : SSEClose
  deriving DecidableEq, Repr

/-- Firing of one close notification against the hooks installed by
`getHandler`.  The transport's `onclose` hook (`src/sse.ts` lines 69-71)
only calls `onClose` with the captured session id; the `res.on('close')`
listener (lines 75-78) calls `onClose` and then deletes the map entry. -/
def sseFire (opts : SSEOptions) (sid : String) (reg : Registry) :
    SSEClose → Registry × List Act
  | SSEClose.channelClose =>
    (reg, if opts.hasOnClose then [Act.callOnClose (some sid)] else [])
  | SSEClose.sinkClose =>
    (regRemove reg sid,
      (if opts.hasOnClose then [Act.callOnClose (some sid)] else [])
        ++ [Act.removeReg sid])

/-- Firing of a sequence of close notifications, threading the registry
and concatenating the traces. -/
def sseFireAll (opts : SSEOptions) (sid : String) (reg : Registry) :
    List SSEClose → Registry × List Act
  | [] => (reg, [])
  | e :: es =>
    let out := sseFire opts sid reg e
    let rest := sseFireAll opts sid out.1 es
    (rest.1, out.2 ++ rest.2)

/-- One execution of the SSE `postHandler` (`src/sse.ts` lines 28-55):
look the query session id up; deliver to the transport when found, else
plain-text 400. -/
def ssePostHandler (opts : SSEOptions) (reg : Registry) (qSessionId : String)
    (deliverThrows headersSent : Bool) : List Act :=
  match regLookup reg qSessionId with
  | some tid =>
    if deliverThrows then
      [Act.deliverTo tid] ++ textCatch opts.hasOnError (some qSessionId) headersSent
    else [Act.deliverTo tid]
  | none => [Act.statusText 400 "No transport found for sessionId"]

example :
    sseFireAll ⟨true, true⟩ "s" [("s", 0)] [SSEClose.channelClose, SSEClose.sinkClose]
      = ([], [Act.callOnClose (some "s"), Act.callOnClose (some "s"), Act.removeReg "s"]) := by
  decide

/-- The catch-block contract of one coordinator operation whose trace is
`tr`: the optional error callback fires exactly once with the best-known
session id `hdr`; the operation's 500 write `w` happens exactly when no
headers were sent yet; when headers were sent, no status write of any
kind happens at all; and `next(error)` happens exactly once, as the last
action. -/
def catchContract (tr : List Act) (hdr : Option String) (hasOnError headersSent : Bool)
    (w : Act) : Prop :=
  countAct tr (Act.callOnError hdr) = (if hasOnError then 1 else 0)
  ∧ countAct tr w = (if headersSent then 0 else 1)
  ∧ (headersSent = true →
      (∀ c rc, countAct tr (Act.statusJson c rc) = 0)
      ∧ ∀ c m, countAct tr (Act.statusText c m) = 0)
  ∧ countAct tr Act.nextErr = 1
  ∧ ∃ mid, tr = mid ++ [Act.nextErr]

/-! ## Helper lemmas -/

theorem statelessFire_dead (opts : StatelessOptions) (k : Nat) :
    statelessFire opts k false = [] := by
  induction k with
  | zero => rfl
  | succ n ih => simp [statelessFire, ih]

theorem regLookup_regRemove_self (reg : Registry) (s : String) :
    regLookup (regRemove reg s) s = none := by
  induction reg with
  | nil => rfl
  | cons p rest ih =>
    obtain ⟨k, v⟩ := p
    by_cases h : k = s
    · simpa [regRemove, h] using ih
    · simp [regRemove, regLookup, h, ih]

theorem regLookup_regInsert_self (reg : Registry) (s : String) (tid : Nat) :
    regLookup (regInsert reg s tid) s = some tid := by
  simp [regInsert, regLookup]

theorem slCatch_counts (opts : StatelessOptions) (ts ss hs : Bool) :
    countAct (slCatch opts ts ss hs) (Act.callOnError none) = (if opts.hasOnError then 1 else 0)
    ∧ countAct (slCatch opts ts ss hs) (Act.statusJson 500 (-32603)) = (if hs then 0 else 1)
    ∧ countAct (slCatch opts ts ss hs) Act.nextErr = 1 := by
  obtain ⟨hc, he⟩ := opts
  cases he <;> cases hs <;> cases ts <;> cases ss <;>
    simp [slCatch, countAct_append, countAct]

theorem sfCatch_counts (opts : StatefulOptions) (hdr : Option String) (hs : Bool) :
    countAct (sfCatch opts hdr hs) (Act.callOnError hdr) = (if opts.hasOnError then 1 else 0)
    ∧ countAct (sfCatch opts hdr hs) (Act.statusJson 500 (-32603)) = (if hs then 0 else 1)
    ∧ countAct (sfCatch opts hdr hs) Act.nextErr = 1 := by
  obtain ⟨h₁, h₂, h₃, h₄⟩ := opts
  cases h₃ <;> cases hs <;> simp [sfCatch, countAct_append, countAct]

theorem sfCatch_count_other (opts : StatefulOptions) (hdr : Option String) (hs : Bool)
    (a : Act) (h₁ : a ≠ Act.callOnError hdr) (h₂ : a ≠ Act.statusJson 500 (-32603))
    (h₃ : a ≠ Act.nextErr) :
    countAct (sfCatch opts hdr hs) a = 0 := by
  obtain ⟨x₁, x₂, x₃, x₄⟩ := opts
  cases x₃ <;> cases hs <;>
    simp [sfCatch, countAct_append, countAct, Ne.symm h₁, Ne.symm h₂, Ne.symm h₃]

theorem append_sfCatch_last (pre : List Act) (opts : StatefulOptions) (hdr : Option String)
    (hs : Bool) :
    ∃ mid, pre ++ sfCatch opts hdr hs = mid ++ [Act.nextErr] := by
  refine ⟨pre ++ ((if opts.hasOnError then [Act.callOnError hdr] else [])
    ++ (if hs then [] else [Act.statusJson 500 (-32603)])), ?_⟩
  simp [sfCatch]

theorem append_slCatch_last (pre : List Act) (opts : StatelessOptions) (ts ss hs : Bool) :
    ∃ mid, pre ++ slCatch opts ts ss hs = mid ++ [Act.nextErr] := by
  refine ⟨pre ++ ((if ts then [Act.transportClose] else [])
    ++ (if ss then [Act.serverClose] else [])
    ++ (if opts.hasOnError then [Act.callOnError none] else [])
    ++ (if hs then [] else [Act.statusJson 500 (-32603)])), ?_⟩
  simp [slCatch]

theorem textCatch_counts (he : Bool) (sid : Option String) (hs : Bool) :
    countAct (textCatch he sid hs) (Act.callOnError sid) = (if he then 1 else 0)
    ∧ countAct (textCatch he sid hs) (Act.statusText 500 "Internal server error")
        = (if hs then 0 else 1)
    ∧ countAct (textCatch he sid hs) Act.nextErr = 1 := by
  cases he <;> cases hs <;> simp [textCatch, countAct_append, countAct]

theorem append_textCatch_last (pre : List Act) (he : Bool) (sid : Option String) (hs : Bool) :
    ∃ mid, pre ++ textCatch he sid hs = mid ++ [Act.nextErr] := by
  refine ⟨pre ++ ((if he then [Act.callOnError sid] else [])
    ++ (if hs then [] else [Act.statusText 500 "Internal server error"])), ?_⟩
  simp [textCatch]

theorem textCatch_headersSent_no_writes (he : Bool) (sid : Option String) :
    (∀ c rc, countAct (textCatch he sid true) (Act.statusJson c rc) = 0)
    ∧ ∀ c m, countAct (textCatch he sid true) (Act.statusText c m) = 0 := by
  cases he <;> constructor <;> intro c y <;> simp [textCatch, countAct_append, countAct]

theorem sfCatch_headersSent_no_writes (sopts : StatefulOptions) (hdr : Option String) :
    (∀ c rc, countAct (sfCatch sopts hdr true) (Act.statusJson c rc) = 0)
    ∧ ∀ c m, countAct (sfCatch sopts hdr true) (Act.statusText c m) = 0 := by
  obtain ⟨x₁, x₂, x₃, x₄⟩ := sopts
  cases x₃ <;> constructor <;> intro c y <;> simp [sfCatch, countAct_append, countAct]

theorem slCatch_headersSent_no_writes (opts : StatelessOptions) (ts ss : Bool) :
    (∀ c rc, countAct (slCatch opts ts ss true) (Act.statusJson c rc) = 0)
    ∧ ∀ c m, countAct (slCatch opts ts ss true) (Act.statusText c m) = 0 := by
  obtain ⟨oc, oe⟩ := opts
  cases oe <;> cases ts <;> cases ss <;> constructor <;> intro c y <;>
    simp [slCatch, countAct_append, countAct]

theorem slPre_counts (tp : SlThrow) :
    countAct (slPre tp) (Act.callOnError none) = 0
    ∧ (∀ c rc, countAct (slPre tp) (Act.statusJson c rc) = 0)
    ∧ (∀ c m, countAct (slPre tp) (Act.statusText c m) = 0)
    ∧ countAct (slPre tp) Act.nextErr = 0 := by
  cases tp <;> refine ⟨?_, fun c rc => ?_, fun c m => ?_, ?_⟩ <;> simp [slPre, countAct]

theorem catchContract_append_textCatch (pre : List Act) (he : Bool) (sid : Option String)
    (hs : Bool)
    (hp₁ : countAct pre (Act.callOnError sid) = 0)
    (hp₂ : ∀ c rc, countAct pre (Act.statusJson c rc) = 0)
    (hp₃ : ∀ c m, countAct pre (Act.statusText c m) = 0)
    (hp₄ : countAct pre Act.nextErr = 0) :
    catchContract (pre ++ textCatch he sid hs) sid he hs
      (Act.statusText 500 "Internal server error") := by
  obtain ⟨t₁, t₂, t₃⟩ := textCatch_counts he sid hs
  refine ⟨?_, ?_, fun hsent => ?_, ?_, append_textCatch_last pre he sid hs⟩
  · rw [countAct_append, hp₁, t₁, Nat.zero_add]
  · rw [countAct_append, hp₃ 500 "Internal server error", t₂, Nat.zero_add]
  · subst hsent
    obtain ⟨n₁, n₂⟩ := textCatch_headersSent_no_writes he sid
    exact ⟨fun c rc => by rw [countAct_append, hp₂ c rc, n₁ c rc],
      fun c m => by rw [countAct_append, hp₃ c m, n₂ c m]⟩
  · rw [countAct_append, hp₄, t₃, Nat.zero_add]

theorem catchContract_append_sfCatch (pre : List Act) (sopts : StatefulOptions)
    (hdr : Option String) (hs : Bool)
    (hp₁ : countAct pre (Act.callOnError hdr) = 0)
    (hp₂ : ∀ c rc, countAct pre (Act.statusJson c rc) = 0)
    (hp₃ : ∀ c m, countAct pre (Act.statusText c m) = 0)
    (hp₄ : countAct pre Act.nextErr = 0) :
    catchContract (pre ++ sfCatch sopts hdr hs) hdr sopts.hasOnError hs
      (Act.statusJson 500 (-32603)) := by
  obtain ⟨t₁, t₂, t₃⟩ := sfCatch_counts sopts hdr hs
  refine ⟨?_, ?_, fun hsent => ?_, ?_, append_sfCatch_last pre sopts hdr hs⟩
  · rw [countAct_append, hp₁, t₁, Nat.zero_add]
  · rw [countAct_append, hp₂ 500 (-32603), t₂, Nat.zero_add]
  · subst hsent
    obtain ⟨n₁, n₂⟩ := sfCatch_headersSent_no_writes sopts hdr
    exact ⟨fun c rc => by rw [countAct_append, hp₂ c rc, n₁ c rc],
      fun c m => by rw [countAct_append, hp₃ c m, n₂ c m]⟩
  · rw [countAct_append, hp₄, t₃, Nat.zero_add]

theorem catchContract_append_slCatch (pre : List Act) (opts : StatelessOptions)
    (ts ss hs : Bool)
    (hp₁ : countAct pre (Act.callOnError none) = 0)
    (hp₂ : ∀ c rc, countAct pre (Act.statusJson c rc) = 0)
    (hp₃ : ∀ c m, countAct pre (Act.statusText c m) = 0)
    (hp₄ : countAct pre Act.nextErr = 0) :
    catchContract (pre ++ slCatch opts ts ss hs) none opts.hasOnError hs
      (Act.statusJson 500 (-32603)) := by
  obtain ⟨t₁, t₂, t₃⟩ := slCatch_counts opts ts ss hs
  refine ⟨?_, ?_, fun hsent => ?_, ?_, append_slCatch_last pre opts ts ss hs⟩
  · rw [countAct_append, hp₁, t₁, Nat.zero_add]
  · rw [countAct_append, hp₂ 500 (-32603), t₂, Nat.zero_add]
  · subst hsent
    obtain ⟨n₁, n₂⟩ := slCatch_headersSent_no_writes opts ts ss
    exact ⟨fun c rc => by rw [countAct_append, hp₂ c rc, n₁ c rc],
      fun c m => by rw [countAct_append, hp₃ c m, n₂ c m]⟩
  · rw [countAct_append, hp₄, t₃, Nat.zero_add]

/-! ## Claim theorems -/

/-- Claim C8: every stateless operation whose request method is not POST is
immediately answered with status 405 and a structured JSON-RPC error body
(code -32000) and nothing else happens: the trace consists of that single
write, so no engine or channel is created and no callback is invoked. -/
theorem stateless_non_post_rejected (opts : StatelessOptions) (r : StatelessRun)
    (h : r.method ≠ "POST") :
    statelessTrace opts r = [Act.statusJson 405 (-32000)] := by
  simp [statelessTrace, h]

/-- Witness for `stateless_non_post_rejected` at a concrete GET run. -/
theorem stateless_non_post_rejected_witness :
    statelessTrace ⟨true, true⟩ ⟨"GET", none, false, false, 0⟩
      = [Act.statusJson 405 (-32000)] :=
  stateless_non_post_rejected ⟨true, true⟩ ⟨"GET", none, false, false, 0⟩ (by decide)

/-- Claim C7: after a successful stateless operation, when the output sink
closes, the `onClose` callback is invoked and then the transport and the
server are closed, each exactly once and in that order (shown by the full
trace equation together with the occurrence counts). -/
theorem stateless_sink_close_cleanup_order (opts : StatelessOptions) (r : StatelessRun)
    (hc : opts.hasOnClose = true) (hm : r.method = "POST") (ht : r.throwAt = none)
    (hk : 1 ≤ r.closesAfter) :
    statelessTrace opts r
      = [Act.createServer, Act.createTransport, Act.connectServer, Act.deliverTo 0,
          Act.registerSinkHook, Act.callOnClose none, Act.transportClose, Act.serverClose]
    ∧ countAct (statelessTrace opts r) (Act.callOnClose none) = 1
    ∧ countAct (statelessTrace opts r) Act.transportClose = 1
    ∧ countAct (statelessTrace opts r) Act.serverClose = 1 := by
  obtain ⟨k, hk₂⟩ : ∃ k, r.closesAfter = k + 1 := ⟨r.closesAfter - 1, by omega⟩
  have htr : statelessTrace opts r
      = [Act.createServer, Act.createTransport, Act.connectServer, Act.deliverTo 0,
          Act.registerSinkHook, Act.callOnClose none, Act.transportClose, Act.serverClose] := by
    simp [statelessTrace, hm, ht, hk₂, statelessFire, hc, statelessFire_dead]
  refine ⟨htr, ?_, ?_, ?_⟩ <;> rw [htr] <;> decide

/-- Witness for `stateless_sink_close_cleanup_order` at a concrete run with
one sink-close emission after delivery. -/
theorem stateless_sink_close_cleanup_order_witness :
    statelessTrace ⟨true, true⟩ ⟨"POST", none, false, false, 1⟩
      = [Act.createServer, Act.createTransport, Act.connectServer, Act.deliverTo 0,
          Act.registerSinkHook, Act.callOnClose none, Act.transportClose, Act.serverClose] :=
  (stateless_sink_close_cleanup_order ⟨true, true⟩ ⟨"POST", none, false, false, 1⟩
    rfl rfl rfl (by decide)).1

/-- Claim C3, counterexample: a successful stateless run whose output sink
closed during delivery (client abort mid-stream, before the
`res.on('close')` listener was registered at `src/stateless.ts` line 47)
has a closed sink, yet the completion hook never fires: no `onClose`
call and no transport close appear in the trace.  This refutes the claim
that the hook "fires whenever the sink closes — including when the
request is aborted mid-stream before delivery completes". -/
theorem stateless_abort_hook_not_fired_cex :
    (StatelessRun.sinkClosed ⟨"POST", none, false, true, 0⟩) = true
    ∧ countAct (statelessTrace ⟨true, true⟩ ⟨"POST", none, false, true, 0⟩)
        (Act.callOnClose none) = 0
    ∧ countAct (statelessTrace ⟨true, true⟩ ⟨"POST", none, false, true, 0⟩)
        Act.transportClose = 0 := by
  decide

/-- Claim C3, amended: on a successful stateless operation the completion
hook never fires more than once — it fires exactly once when at least one
sink-close emission happens after the hook is registered (delivery
completed), and not at all when the only close happened during delivery,
before registration. -/
theorem stateless_close_hook_amended (opts : StatelessOptions) (r : StatelessRun)
    (hm : r.method = "POST") (ht : r.throwAt = none) :
    countAct (statelessTrace opts r) Act.transportClose
      = (if r.closesAfter = 0 then 0 else 1)
    ∧ countAct (statelessTrace opts r) (Act.callOnClose none)
      = (if r.closesAfter = 0 || !opts.hasOnClose then 0 else 1) := by
  cases hk : r.closesAfter with
  | zero =>
    constructor <;>
      simp [statelessTrace, hm, ht, hk, statelessFire, countAct_append, countAct]
  | succ n =>
    cases hc : opts.hasOnClose <;> constructor <;>
      simp [statelessTrace, hm, ht, hk, statelessFire, statelessFire_dead,
        countAct_append, countAct, hc]

/-- Witness for `stateless_close_hook_amended` at a concrete run with two
sink-close emissions after delivery (the hook still fires only once). -/
theorem stateless_close_hook_amended_witness :
    countAct (statelessTrace ⟨true, true⟩ ⟨"POST", none, false, false, 2⟩)
        Act.transportClose = (if (2 : Nat) = 0 then 0 else 1)
    ∧ countAct (statelessTrace ⟨true, true⟩ ⟨"POST", none, false, false, 2⟩)
        (Act.callOnClose none) = (if (2 : Nat) = 0 || !(true : Bool) then 0 else 1) :=
  stateless_close_hook_amended ⟨true, true⟩ ⟨"POST", none, false, false, 2⟩ rfl rfl

/-- Claim C10: on every stateless operation where creation, binding or
delivery throws, the `onClose` callback never runs, the sink-close hook is
never registered, only the error callback fires (once, when provided), and
the transport and server are each closed exactly when they had been set —
the existence guards of the `catch` block. -/
theorem stateless_error_path_cleanup (opts : StatelessOptions) (r : StatelessRun)
    (tp : SlThrow) (hm : r.method = "POST") (ht : r.throwAt = some tp) :
    countAct (statelessTrace opts r) (Act.callOnClose none) = 0
    ∧ countAct (statelessTrace opts r) Act.registerSinkHook = 0
    ∧ countAct (statelessTrace opts r) (Act.callOnError none)
        = (if opts.hasOnError then 1 else 0)
    ∧ countAct (statelessTrace opts r) Act.transportClose
        = (if tp = SlThrow.atConnect ∨ tp = SlThrow.atDeliver then 1 else 0)
    ∧ countAct (statelessTrace opts r) Act.serverClose
        = (if tp = SlThrow.atFactory then 0 else 1) := by
  obtain ⟨hc, he⟩ := opts
  cases tp <;> cases he <;> cases hhs : r.headersSentAtCatch <;>
    simp [statelessTrace, slPre, slTransportSet, slServerSet, hm, ht, slCatch,
      countAct_append, countAct, hhs]

/-- Witness for `stateless_error_path_cleanup` at a concrete run throwing
during delivery. -/
theorem stateless_error_path_cleanup_witness :
    countAct (statelessTrace ⟨true, true⟩ ⟨"POST", some SlThrow.atDeliver, false, false, 0⟩)
        (Act.callOnClose none) = 0
    ∧ countAct (statelessTrace ⟨true, true⟩ ⟨"POST", some SlThrow.atDeliver, false, false, 0⟩)
        Act.registerSinkHook = 0
    ∧ countAct (statelessTrace ⟨true, true⟩ ⟨"POST", some SlThrow.atDeliver, false, false, 0⟩)
        (Act.callOnError none) = (if (true : Bool) then 1 else 0)
    ∧ countAct (statelessTrace ⟨true, true⟩ ⟨"POST", some SlThrow.atDeliver, false, false, 0⟩)
        Act.transportClose
        = (if SlThrow.atDeliver = SlThrow.atConnect ∨ SlThrow.atDeliver = SlThrow.atDeliver
            then 1 else 0)
    ∧ countAct (statelessTrace ⟨true, true⟩ ⟨"POST", some SlThrow.atDeliver, false, false, 0⟩)
        Act.serverClose = (if SlThrow.atDeliver = SlThrow.atFactory then 0 else 1) :=
  stateless_error_path_cleanup ⟨true, true⟩ ⟨"POST", some SlThrow.atDeliver, false, false, 0⟩
    SlThrow.atDeliver rfl rfl

/-- Claim C4: a stateful start-or-continue operation whose
`mcp-session-id` header resolves in the registry reuses that transport —
it delivers the body to the registered transport, leaves the coordinator
state (registry and fresh-identity counter) unchanged, constructs no new
transport or server, and never invokes `onSessionInitialized`. -/
theorem stateful_reuse_existing_session
    (opts : StatefulOptions) (st : StatefulState) (req : StatefulReq) (env : StatefulEnv)
    (s : String) (tid : Nat)
    (hhd : req.sessionHeader = some s) (hfound : regLookup st.registry s = some tid) :
    (postHandler opts st req env).1 = st
    ∧ countAct (postHandler opts st req env).2 (Act.deliverTo tid) = 1
    ∧ countAct (postHandler opts st req env).2 Act.createTransport = 0
    ∧ countAct (postHandler opts st req env).2 Act.createServer = 0
    ∧ ∀ g, countAct (postHandler opts st req env).2 (Act.callOnSessionInitialized g) = 0 := by
  have hdel : ∀ g : String,
      countAct (sfCatch opts (some s) env.headersSentAtCatch)
        (Act.callOnSessionInitialized g) = 0 := fun g =>
    sfCatch_count_other _ _ _ _ (by simp) (by simp) (by simp)
  have hct : countAct (sfCatch opts (some s) env.headersSentAtCatch)
      Act.createTransport = 0 :=
    sfCatch_count_other _ _ _ _ (by simp) (by simp) (by simp)
  have hcs : countAct (sfCatch opts (some s) env.headersSentAtCatch)
      Act.createServer = 0 :=
    sfCatch_count_other _ _ _ _ (by simp) (by simp) (by simp)
  have hdv : countAct (sfCatch opts (some s) env.headersSentAtCatch)
      (Act.deliverTo tid) = 0 :=
    sfCatch_count_other _ _ _ _ (by simp) (by simp) (by simp)
  cases henv : env.throwAt with
  | none =>
    refine ⟨?_, ?_, ?_, ?_, fun g => ?_⟩ <;>
      simp [postHandler, hhd, hfound, henv, countAct]
  | some tp =>
    cases tp with
    | atConnect =>
      refine ⟨?_, ?_, ?_, ?_, fun g => ?_⟩ <;>
        simp [postHandler, hhd, hfound, henv, countAct]
    | atDeliver =>
      refine ⟨?_, ?_, ?_, ?_, fun g => ?_⟩ <;>
        simp [postHandler, hhd, hfound, henv, countAct_append, countAct,
          hdel, hct, hcs, hdv]

/-- Witness for `stateful_reuse_existing_session` at a registry holding
session "s". -/
theorem stateful_reuse_existing_session_witness :
    (postHandler ⟨true, true, true, true⟩ ⟨[("s", 7)], 9⟩ ⟨some "s", "POST", false⟩
        ⟨none, false, false, "g"⟩).1 = ⟨[("s", 7)], 9⟩
    ∧ countAct (postHandler ⟨true, true, true, true⟩ ⟨[("s", 7)], 9⟩
        ⟨some "s", "POST", false⟩ ⟨none, false, false, "g"⟩).2 (Act.deliverTo 7) = 1 :=
  ⟨(stateful_reuse_existing_session ⟨true, true, true, true⟩ ⟨[("s", 7)], 9⟩
      ⟨some "s", "POST", false⟩ ⟨none, false, false, "g"⟩ "s" 7 rfl (by decide)).1,
    (stateful_reuse_existing_session ⟨true, true, true, true⟩ ⟨[("s", 7)], 9⟩
      ⟨some "s", "POST", false⟩ ⟨none, false, false, "g"⟩ "s" 7 rfl (by decide)).2.1⟩

/-- Claim C5: a stateful start-or-continue operation with no
`mcp-session-id` header and a non-initialize body takes the
invalid-session path: the optional `onInvalidSession` callback runs, a
structured 400 with JSON-RPC code -32000 is written, and the coordinator
state is unchanged — no transport is created or touched. -/
theorem stateful_reject_no_session_non_init
    (opts : StatefulOptions) (st : StatefulState) (req : StatefulReq) (env : StatefulEnv)
    (hhd : req.sessionHeader = none) (hbody : req.isInitializeRequest = false) :
    (postHandler opts st req env).1 = st
    ∧ (postHandler opts st req env).2
        = (if opts.hasOnInvalidSession then [Act.callOnInvalidSession] else [])
          ++ [Act.statusJson 400 (-32000)] := by
  constructor <;> simp [postHandler, hhd, hbody]

/-- Witness for `stateful_reject_no_session_non_init` at a concrete
header-less non-initialize POST. -/
theorem stateful_reject_no_session_non_init_witness :
    (postHandler ⟨true, true, true, true⟩ ⟨[("s", 7)], 9⟩ ⟨none, "POST", false⟩
        ⟨none, false, false, "g"⟩).1 = ⟨[("s", 7)], 9⟩
    ∧ (postHandler ⟨true, true, true, true⟩ ⟨[("s", 7)], 9⟩ ⟨none, "POST", false⟩
        ⟨none, false, false, "g"⟩).2
        = (if (true : Bool) then [Act.callOnInvalidSession] else [])
          ++ [Act.statusJson 400 (-32000)] :=
  stateful_reject_no_session_non_init ⟨true, true, true, true⟩ ⟨[("s", 7)], 9⟩
    ⟨none, "POST", false⟩ ⟨none, false, false, "g"⟩ rfl rfl

/-- Claim C9: a stateful start-or-continue request carrying an
`mcp-session-id` header whose value is not in the registry takes the
invalid-session path even when the body is an initialize message — the
new-transport branch of `postHandler` requires the header to be entirely
absent.  No hypothesis on the body is needed. -/
theorem stateful_unknown_header_invalid_even_if_init
    (opts : StatefulOptions) (st : StatefulState) (req : StatefulReq) (env : StatefulEnv)
    (s : String)
    (hhd : req.sessionHeader = some s) (hmiss : regLookup st.registry s = none) :
    (postHandler opts st req env).1 = st
    ∧ (postHandler opts st req env).2
        = (if opts.hasOnInvalidSession then [Act.callOnInvalidSession] else [])
          ++ [Act.statusJson 400 (-32000)] := by
  constructor <;> simp [postHandler, hhd, hmiss]

/-- Witness for `stateful_unknown_header_invalid_even_if_init` at a header
value absent from the registry and an initialize body. -/
theorem stateful_unknown_header_invalid_even_if_init_witness :
    (postHandler ⟨true, true, true, true⟩ ⟨[("s", 7)], 9⟩ ⟨some "missing", "POST", true⟩
        ⟨none, false, true, "g"⟩).1 = ⟨[("s", 7)], 9⟩
    ∧ (postHandler ⟨true, true, true, true⟩ ⟨[("s", 7)], 9⟩ ⟨some "missing", "POST", true⟩
        ⟨none, false, true, "g"⟩).2
        = (if (true : Bool) then [Act.callOnInvalidSession] else [])
          ++ [Act.statusJson 400 (-32000)] :=
  stateful_unknown_header_invalid_even_if_init ⟨true, true, true, true⟩ ⟨[("s", 7)], 9⟩
    ⟨some "missing", "POST", true⟩ ⟨none, false, true, "g"⟩ "missing" rfl (by decide)

theorem countAct_if_other (b : Bool) (x a : Act) (h : x ≠ a) :
    countAct (if b then [x] else []) a = 0 := by
  cases b <;> simp [countAct, h]

/-- Claim C6: for every coordinator operation in which resolving or
delegating throws, the operation catches the error, invokes the optional
error callback with the best-known session id, writes its 500 response
exactly when no headers were sent yet (and performs no status write of
any kind when they were), and always performs `next(error)` last — shown
for all six coordinator operations: the stateless handler at all four
throw points, the stateful `postHandler` on both its reuse and creation
paths, the stateful GET/DELETE `handleSessionRequest` with delegation
throwing, the SSE `postHandler` with delivery throwing, and the SSE
`getHandler` at all three of its throw points. -/
theorem handlers_catch_report_and_forward
    (opts : StatelessOptions) (r : StatelessRun) (tp : SlThrow)
    (sopts : StatefulOptions) (st : StatefulState)
    (reqA : StatefulReq) (envA : StatefulEnv) (s : String) (tid : Nat)
    (reqB : StatefulReq) (envB : StatefulEnv) (stpB : SfThrow)
    (gopts : StatefulOptions) (gst : StatefulState) (sD : String) (tidD : Nat) (hsD : Bool)
    (eopts : SSEOptions) (regE : Registry) (qE : String) (tidE : Nat) (hsE : Bool)
    (fopts : SSEOptions) (regF : Registry) (sidF : String) (tidF : Nat)
    (tpF : SseOpenThrow) (hsF : Bool)
    (hm : r.method = "POST") (ht : r.throwAt = some tp)
    (hhdA : reqA.sessionHeader = some s) (hfoundA : regLookup st.registry s = some tid)
    (henvA : envA.throwAt = some SfThrow.atDeliver)
    (hhdB : reqB.sessionHeader = none) (hmB : reqB.method = "POST")
    (hbodyB : reqB.isInitializeRequest = true)
    (henvB : envB.throwAt = some stpB)
    (hfoundD : regLookup gst.registry sD = some tidD)
    (hfoundE : regLookup regE qE = some tidE) :
    catchContract (statelessTrace opts r) none opts.hasOnError r.headersSentAtCatch
        (Act.statusJson 500 (-32603))
    ∧ catchContract (postHandler sopts st reqA envA).2 (some s) sopts.hasOnError
        envA.headersSentAtCatch (Act.statusJson 500 (-32603))
    ∧ catchContract (postHandler sopts st reqB envB).2 none sopts.hasOnError
        envB.headersSentAtCatch (Act.statusJson 500 (-32603))
    ∧ catchContract (handleSessionRequest gopts gst (some sD) true hsD) (some sD)
        gopts.hasOnError hsD (Act.statusText 500 "Internal server error")
    ∧ catchContract (ssePostHandler eopts regE qE true hsE) (some qE)
        eopts.hasOnError hsE (Act.statusText 500 "Internal server error")
    ∧ catchContract (sseGetHandler fopts regF sidF tidF (some tpF) hsF).2 none
        fopts.hasOnError hsF (Act.statusText 500 "Internal server error") := by
  refine ⟨?_, ?_, ?_, ?_, ?_, ?_⟩
  · have htr : statelessTrace opts r
        = slPre tp ++ slCatch opts (slTransportSet tp) (slServerSet tp)
            r.headersSentAtCatch := by
      simp [statelessTrace, hm, ht]
    rw [htr]
    obtain ⟨p₁, p₂, p₃, p₄⟩ := slPre_counts tp
    exact catchContract_append_slCatch _ _ _ _ _ p₁ p₂ p₃ p₄
  · have htrA : (postHandler sopts st reqA envA).2
        = [Act.deliverTo tid] ++ sfCatch sopts (some s) envA.headersSentAtCatch := by
      simp [postHandler, hhdA, hfoundA, henvA]
    rw [htrA]
    exact catchContract_append_sfCatch _ _ _ _ (by simp [countAct])
      (fun c rc => by simp [countAct]) (fun c m => by simp [countAct]) (by simp [countAct])
  · cases stpB with
    | atConnect =>
      have htrB : (postHandler sopts st reqB envB).2
          = [Act.createTransport, Act.createServer]
            ++ sfCatch sopts none envB.headersSentAtCatch := by
        simp [postHandler, hhdB, hmB, hbodyB, henvB]
      rw [htrB]
      exact catchContract_append_sfCatch _ _ _ _ (by simp [countAct])
        (fun c rc => by simp [countAct]) (fun c m => by simp [countAct]) (by simp [countAct])
    | atDeliver =>
      cases hif : envB.initFires with
      | false =>
        have htrB : (postHandler sopts st reqB envB).2
            = [Act.createTransport, Act.createServer, Act.connectServer,
                Act.deliverTo st.nextTid]
              ++ sfCatch sopts none envB.headersSentAtCatch := by
          simp [postHandler, hhdB, hmB, hbodyB, henvB, hif]
        rw [htrB]
        exact catchContract_append_sfCatch _ _ _ _ (by simp [countAct])
          (fun c rc => by simp [countAct]) (fun c m => by simp [countAct])
          (by simp [countAct])
      | true =>
        have htrB : (postHandler sopts st reqB envB).2
            = [Act.createTransport, Act.createServer, Act.connectServer,
                Act.deliverTo st.nextTid]
              ++ (([Act.insertReg envB.genId st.nextTid]
                  ++ (if sopts.hasOnSessionInitialized
                      then [Act.callOnSessionInitialized envB.genId] else []))
                ++ sfCatch sopts none envB.headersSentAtCatch) := by
          simp [postHandler, hhdB, hmB, hbodyB, henvB, hif, sfInitHook]
        rw [htrB, ← List.append_assoc]
        exact catchContract_append_sfCatch _ _ _ _
          (by simp [countAct_append, countAct, countAct_if_other])
          (fun c rc => by simp [countAct_append, countAct, countAct_if_other])
          (fun c m => by simp [countAct_append, countAct, countAct_if_other])
          (by simp [countAct_append, countAct, countAct_if_other])
  · have htrD : handleSessionRequest gopts gst (some sD) true hsD
        = [Act.deliverTo tidD] ++ textCatch gopts.hasOnError (some sD) hsD := by
      simp [handleSessionRequest, hfoundD]
    rw [htrD]
    exact catchContract_append_textCatch _ _ _ _ (by simp [countAct])
      (fun c rc => by simp [countAct]) (fun c m => by simp [countAct]) (by simp [countAct])
  · have htrE : ssePostHandler eopts regE qE true hsE
        = [Act.deliverTo tidE] ++ textCatch eopts.hasOnError (some qE) hsE := by
      simp [ssePostHandler, hfoundE]
    rw [htrE]
    exact catchContract_append_textCatch _ _ _ _ (by simp [countAct])
      (fun c rc => by simp [countAct]) (fun c m => by simp [countAct]) (by simp [countAct])
  · cases tpF with
    | atConstruct =>
      have h := catchContract_append_textCatch [] fopts.hasOnError none hsF
        (by simp [countAct]) (fun c rc => by simp [countAct])
        (fun c m => by simp [countAct]) (by simp [countAct])
      simpa [sseGetHandler] using h
    | atFactory =>
      have htrF : (sseGetHandler fopts regF sidF tidF (some SseOpenThrow.atFactory) hsF).2
          = [Act.createTransport, Act.insertReg sidF tidF, Act.registerSinkHook]
            ++ textCatch fopts.hasOnError none hsF := by
        simp [sseGetHandler]
      rw [htrF]
      exact catchContract_append_textCatch _ _ _ _ (by simp [countAct])
        (fun c rc => by simp [countAct]) (fun c m => by simp [countAct]) (by simp [countAct])
    | atConnect =>
      have htrF : (sseGetHandler fopts regF sidF tidF (some SseOpenThrow.atConnect) hsF).2
          = [Act.createTransport, Act.insertReg sidF tidF, Act.registerSinkHook,
              Act.createServer]
            ++ textCatch fopts.hasOnError none hsF := by
        simp [sseGetHandler]
      rw [htrF]
      exact catchContract_append_textCatch _ _ _ _ (by simp [countAct])
        (fun c rc => by simp [countAct]) (fun c m => by simp [countAct]) (by simp [countAct])

/-- Witness for `handlers_catch_report_and_forward` at concrete throwing
runs of all six coordinator operations. -/
theorem handlers_catch_report_and_forward_witness :
    countAct (statelessTrace ⟨true, true⟩ ⟨"POST", some SlThrow.atDeliver, false, false, 0⟩)
        Act.nextErr = 1
    ∧ countAct (postHandler ⟨true, true, true, true⟩ ⟨[("s", 3)], 5⟩
        ⟨some "s", "POST", false⟩ ⟨some SfThrow.atDeliver, false, false, "g"⟩).2
        Act.nextErr = 1
    ∧ countAct (postHandler ⟨true, true, true, true⟩ ⟨[("s", 3)], 5⟩
        ⟨none, "POST", true⟩ ⟨some SfThrow.atConnect, true, false, "g"⟩).2
        Act.nextErr = 1
    ∧ countAct (handleSessionRequest ⟨true, true, true, true⟩ ⟨[("t", 4)], 6⟩
        (some "t") true false) Act.nextErr = 1
    ∧ countAct (ssePostHandler ⟨true, true⟩ [("q", 2)] "q" true false) Act.nextErr = 1
    ∧ countAct (sseGetHandler ⟨true, true⟩ [] "f" 0 (some SseOpenThrow.atConnect) false).2
        Act.nextErr = 1 := by
  obtain ⟨hA, hB, hC, hD, hE, hF⟩ := handlers_catch_report_and_forward
    ⟨true, true⟩ ⟨"POST", some SlThrow.atDeliver, false, false, 0⟩ SlThrow.atDeliver
    ⟨true, true, true, true⟩ ⟨[("s", 3)], 5⟩
    ⟨some "s", "POST", false⟩ ⟨some SfThrow.atDeliver, false, false, "g"⟩ "s" 3
    ⟨none, "POST", true⟩ ⟨some SfThrow.atConnect, true, false, "g"⟩ SfThrow.atConnect
    ⟨true, true, true, true⟩ ⟨[("t", 4)], 6⟩ "t" 4 false
    ⟨true, true⟩ [("q", 2)] "q" 2 false
    ⟨true, true⟩ [] "f" 0 SseOpenThrow.atConnect false
    rfl rfl rfl (by decide) rfl rfl rfl rfl rfl (by decide) (by decide)
  exact ⟨hA.2.2.2.1, hB.2.2.2.1, hC.2.2.2.1, hD.2.2.2.1, hE.2.2.2.1, hF.2.2.2.1⟩

/-- Claim C1, counterexample: after a streaming-mode open with session id
"s", firing both close notifications (the transport's own `onclose` hook,
then the sink's `close` listener) removes the registry entry once but
invokes the `onClose` callback twice — the transport `onclose` hook at
`src/sse.ts` lines 69-71 calls `onClose` without removing the entry, and
the sink listener at lines 75-78 calls `onClose` again.  This refutes
"the close callback is invoked at most once for that identifier". -/
theorem sse_double_close_callback_twice_cex :
    countAct (sseFireAll ⟨true, true⟩ "s" [("s", 0)]
        [SSEClose.channelClose, SSEClose.sinkClose]).2 (Act.callOnClose (some "s")) = 2
    ∧ countAct (sseFireAll ⟨true, true⟩ "s" [("s", 0)]
        [SSEClose.channelClose, SSEClose.sinkClose]).2 (Act.removeReg "s") = 1
    ∧ ¬ countAct (sseFireAll ⟨true, true⟩ "s" [("s", 0)]
        [SSEClose.channelClose, SSEClose.sinkClose]).2 (Act.callOnClose (some "s")) ≤ 1 := by
  decide

/-- Claim C1, amended: for a streaming-mode channel closed twice — once
via its own close hook and once via the sink's close notification, in
either order — the registry entry is removed exactly once (only the sink
listener removes it) and the entry is gone afterwards, but the `onClose`
callback is invoked once per close notification, i.e. twice in total. -/
theorem sse_double_close_amended
    (opts : SSEOptions) (reg : Registry) (s : String) (evs : List SSEClose)
    (hc : opts.hasOnClose = true)
    (hevs : evs = [SSEClose.channelClose, SSEClose.sinkClose]
          ∨ evs = [SSEClose.sinkClose, SSEClose.channelClose]) :
    countAct (sseFireAll opts s reg evs).2 (Act.removeReg s) = 1
    ∧ regLookup (sseFireAll opts s reg evs).1 s = none
    ∧ countAct (sseFireAll opts s reg evs).2 (Act.callOnClose (some s)) = 2 := by
  rcases hevs with hevs | hevs <;> subst hevs <;>
    refine ⟨?_, ?_, ?_⟩ <;>
      simp [sseFireAll, sseFire, hc, countAct_append, countAct, regLookup_regRemove_self]

/-- Witness for `sse_double_close_amended` at a concrete double close of
session "s". -/
theorem sse_double_close_amended_witness :
    countAct (sseFireAll ⟨true, true⟩ "s" [("s", 0)]
        [SSEClose.channelClose, SSEClose.sinkClose]).2 (Act.removeReg "s") = 1
    ∧ regLookup (sseFireAll ⟨true, true⟩ "s" [("s", 0)]
        [SSEClose.channelClose, SSEClose.sinkClose]).1 "s" = none
    ∧ countAct (sseFireAll ⟨true, true⟩ "s" [("s", 0)]
        [SSEClose.channelClose, SSEClose.sinkClose]).2 (Act.callOnClose (some "s")) = 2 :=
  sse_double_close_amended ⟨true, true⟩ [("s", 0)] "s"
    [SSEClose.channelClose, SSEClose.sinkClose] rfl (Or.inl rfl)

/-- Claim C2, counterexample: after the channel's own close hook fires for
an open streaming channel "s", the `onClose` callback has run but the
registry still contains the entry — the hook at `src/sse.ts` lines 69-71
performs no removal.  This refutes "the close hook ... invokes the
optional close callback with the channel's identifier and then removes
that identifier's entry from the registry". -/
theorem sse_channel_close_no_removal_cex :
    (sseFire ⟨true, true⟩ "s" [("s", 0)] SSEClose.channelClose).2
      = [Act.callOnClose (some "s")]
    ∧ (sseFire ⟨true, true⟩ "s" [("s", 0)] SSEClose.channelClose).1 = [("s", 0)]
    ∧ regLookup (sseFire ⟨true, true⟩ "s" [("s", 0)] SSEClose.channelClose).1 "s"
        = some 0 := by
  decide

/-- Claim C2, amended: on a streaming-mode open, the channel's own close
hook invokes the `onClose` callback with the channel's identifier but
removes nothing from the registry; registry removal is performed only by
the sink's close listener; and registry insertion under the new
identifier does happen before the protocol engine is bound to the
channel, as the open trace shows. -/
theorem sse_open_close_hook_amended
    (opts : SSEOptions) (reg reg₂ : Registry) (sid : String) (tid : Nat)
    (hc : opts.hasOnClose = true) :
    (sseOpen reg sid tid).2
      = [Act.createTransport, Act.insertReg sid tid, Act.registerSinkHook,
          Act.createServer, Act.connectServer]
    ∧ regLookup (sseOpen reg sid tid).1 sid = some tid
    ∧ (sseFire opts sid reg₂ SSEClose.channelClose).1 = reg₂
    ∧ (sseFire opts sid reg₂ SSEClose.channelClose).2 = [Act.callOnClose (some sid)]
    ∧ (sseFire opts sid reg₂ SSEClose.sinkClose).1 = regRemove reg₂ sid
    ∧ countAct (sseFire opts sid reg₂ SSEClose.sinkClose).2 (Act.removeReg sid) = 1 := by
  refine ⟨rfl, regLookup_regInsert_self reg sid tid, rfl, ?_, rfl, ?_⟩ <;>
    simp [sseFire, hc, countAct_append, countAct]

/-- Witness for `sse_open_close_hook_amended` at a concrete open of
session "s" followed by its channel-close hook. -/
theorem sse_open_close_hook_amended_witness :
    (sseOpen [] "s" 0).2
      = [Act.createTransport, Act.insertReg "s" 0, Act.registerSinkHook,
          Act.createServer, Act.connectServer]
    ∧ regLookup (sseOpen [] "s" 0).1 "s" = some 0
    ∧ (sseFire ⟨true, true⟩ "s" [("s", 0)] SSEClose.channelClose).1 = [("s", 0)]
    ∧ (sseFire ⟨true, true⟩ "s" [("s", 0)] SSEClose.channelClose).2
        = [Act.callOnClose (some "s")]
    ∧ (sseFire ⟨true, true⟩ "s" [("s", 0)] SSEClose.sinkClose).1 = regRemove [("s", 0)] "s"
    ∧ countAct (sseFire ⟨true, true⟩ "s" [("s", 0)] SSEClose.sinkClose).2
        (Act.removeReg "s") = 1 :=
  sse_open_close_hook_amended ⟨true, true⟩ [] [("s", 0)] "s" 0 rfl

end ExpressMcp
